import Mathlib

/-!
Shallow embedding of the chat page controller in
`src/frontend/pages/index.js` (the `Home` component).

The component keeps four pieces of React state — the draft `input`, the
`messages` list, the in-flight flag `isStreaming`, the `error` banner text —
plus a ref `abortRef` holding the current `AbortController` (modelled as a
Bool: is a controller present).  The only operations that touch this state
are `sendMessage` (the submission step and the three asynchronous completion
branches of its `fetch`), `stopGeneration` and the error-banner dismiss
button.
-/

namespace RagChat

/-- JS `String.prototype.trim`: remove leading and trailing whitespace.
Embeds the calls `input.trim()` on lines 31/33 of `index.js`. -/
def jsTrim (s : String) : String :=
  ⟨((s.data.dropWhile Char.isWhitespace).reverse.dropWhile Char.isWhitespace).reverse⟩

/-- One cited source, `{source, score}`, as delivered by the `/ask` endpoint
and stored on a bot message (spec §3, §6).  The score is only ever displayed,
never computed with, so we model it as an integer number of basis points. -/
structure Source where
  source : String
  score : Int
deriving DecidableEq, Repr

/-- A chat message object.  The submission step builds
`{role: "user", text}` and `{role: "bot", id, text: "", isStreaming: true}`;
fields absent on a JS object are `none`. -/
structure Message where
  role : String
  id : Option Nat := none
  text : String
  sources : Option (List Source) := none
  isStreaming : Option Bool := none
  isError : Option Bool := none
deriving DecidableEq, Repr

/-- The React state of the `Home` component (spec §3 `ChatState`), plus the
`abortRef` ref (`true` iff `abortRef.current` is non-null). -/
structure ChatState where
  input : String
  messages : List Message
  isStreaming : Bool
  error : Option String
  abortRef : Bool
deriving DecidableEq, Repr

/-- The HTTP request issued by `sendMessage` (lines 48–53). -/
structure AskRequest where
  url : String
  method : String
  question : String
  id : Nat
deriving DecidableEq, Repr

def askUrl : String := "http://127.0.0.1:8000/ask"

def stoppedText : String := "Response generation stopped."

def errorBannerText : String := "Unable to connect to server. Please try again."

def fallbackErrorText : String :=
  "I apologize, but I'm unable to connect to the server at the moment. Please check your connection and try again."

/-- The user message built on line 33: `{role: "user", text: input.trim()}`. -/
def userMessageOf (s : ChatState) : Message :=
  { role := "user", text := jsTrim s.input }

/-- The streaming placeholder appended on line 39:
`{role: "bot", id, text: "", isStreaming: true}`. -/
def placeholderOf (now : Nat) : Message :=
  { role := "bot", id := some now, text := "", isStreaming := some true }

/-- The synchronous part of `sendMessage` (lines 30–45 and 48–53): guard on
`!input.trim() || isStreaming`, append the user message and the streaming
placeholder, clear the draft and the error banner, set the in-flight flag,
install an abort controller, and issue the POST.  `now` is `Date.now()`.
Returns the new state and the request issued, if any. -/
def sendMessage (now : Nat) (s : ChatState) : ChatState × Option AskRequest :=
  if jsTrim s.input = "" ∨ s.isStreaming = true then (s, none)
  else
    ({ input := "",
       messages := s.messages ++ [userMessageOf s, placeholderOf now],
       isStreaming := true,
       error := none,
       abortRef := true },
     some { url := askUrl, method := "POST", question := (userMessageOf s).text, id := now })

/-- The `setMessages((prev) => prev.map((m) => m.id === id ? ... : m))`
pattern shared by all three completion branches. -/
def updateById (id : Nat) (f : Message → Message) (ms : List Message) : List Message :=
  ms.map fun m => if m.id = some id then f m else m

/-- The per-message update of the success branch (line 64). -/
def successUpdate (answer : String) (sources : List Source) (m : Message) : Message :=
  { m with text := answer, sources := some sources, isStreaming := some false }

/-- The per-message update of the AbortError branch (line 73). -/
def abortUpdate (m : Message) : Message :=
  { m with text := stoppedText, isStreaming := some false }

/-- The per-message update of the generic failure branch (lines 83–88). -/
def failureUpdate (m : Message) : Message :=
  { m with text := fallbackErrorText, isStreaming := some false, isError := some true }

/-- Success branch (lines 59–67): populate the placeholder with the answer
and sources and stop its streaming indicator. -/
def onSuccess (id : Nat) (answer : String) (sources : List Source) (s : ChatState) : ChatState :=
  { s with messages := updateById id (successUpdate answer sources) s.messages }

/-- AbortError branch (lines 69–76): mark the placeholder as stopped. -/
def onAbort (id : Nat) (s : ChatState) : ChatState :=
  { s with messages := updateById id abortUpdate s.messages }

/-- Generic failure branch (lines 77–91): set the error banner and replace
the placeholder by the fallback error message. -/
def onFailure (id : Nat) (s : ChatState) : ChatState :=
  { s with error := some errorBannerText,
           messages := updateById id failureUpdate s.messages }

/-- The `finally` block (lines 93–96): clear the in-flight flag and drop the
abort controller. -/
def finallyStep (s : ChatState) : ChatState :=
  { s with isStreaming := false, abortRef := false }

/-- How the awaited `fetch` can come back: a response with a status and (for
the 2xx path) a parsed `{answer, sources}` body, a rejection with
`err.name === "AbortError"`, or any other rejection. -/
inductive FetchOutcome
  | response (status : Nat) (answer : String) (sources : List Source)
  | abortError
  | networkError
deriving DecidableEq, Repr

/-- The complete asynchronous continuation of `sendMessage` for the request
with identifier `id` (lines 55–96): a non-ok status (`res.ok` is
`200 ≤ status < 300`) throws and is caught by the generic failure branch,
an ok status runs the success branch, an AbortError runs the stopped
branch, anything else the failure branch; the `finally` block always runs. -/
def resolveFetch (id : Nat) (o : FetchOutcome) (s : ChatState) : ChatState :=
  finallyStep <|
    match o with
    | .response status answer sources =>
        if 200 ≤ status ∧ status < 300 then onSuccess id answer sources s
        else onFailure id s
    | .abortError => onAbort id s
    | .networkError => onFailure id s

/-- `stopGeneration` (lines 100–105): if a controller is installed, abort it
(which later resolves the fetch with an AbortError) and clear the in-flight
flag.  The ref itself is not cleared here. -/
def stopGeneration (s : ChatState) : ChatState :=
  if s.abortRef then { s with isStreaming := false } else s

/-- The × button of the error banner (line 225): `setError(null)`. -/
def dismissError (s : ChatState) : ChatState :=
  { s with error := none }

/-- Typing in the textarea (line 612): `setInput(e.target.value)`. -/
def typeInput (t : String) (s : ChatState) : ChatState :=
  { s with input := t }

/-- The component state together with the identifier of the request whose
fetch promise is still unresolved, if any. -/
structure SysState where
  chat : ChatState
  pending : Option Nat
deriving DecidableEq, Repr

/-- The initial state: `useState("")`, `useState([])`, `useState(false)`,
`useState(null)`, `useRef(null)`. -/
def initState : SysState :=
  { chat := { input := "", messages := [], isStreaming := false, error := none,
              abortRef := false },
    pending := none }

/-- The submission event on the whole system: run the synchronous part of
`sendMessage`; if a request was issued its fetch becomes the pending one. -/
def submitSys (now : Nat) (s : SysState) : SysState :=
  let r := sendMessage now s.chat
  { chat := r.1,
    pending := match r.2 with
      | some req => some req.id
      | none => s.pending }

/-- The pending fetch resolves with outcome `o`. -/
def resolveSys (id : Nat) (o : FetchOutcome) (s : SysState) : SysState :=
  { chat := resolveFetch id o s.chat, pending := none }

def stopSys (s : SysState) : SysState :=
  { s with chat := stopGeneration s.chat }

def typeSys (t : String) (s : SysState) : SysState :=
  { s with chat := typeInput t s.chat }

def dismissSys (s : SysState) : SysState :=
  { s with chat := dismissError s.chat }

/-- One event of the controller: a submission, the resolution of the pending
fetch, the stop button, typing in the draft, or dismissing the banner. -/
inductive Step : SysState → SysState → Prop
  | submit (now : Nat) (s : SysState) : Step s (submitSys now s)
  | resolve (id : Nat) (o : FetchOutcome) (s : SysState) (h : s.pending = some id) :
      Step s (resolveSys id o s)
  | stop (s : SysState) : Step s (stopSys s)
  | type (t : String) (s : SysState) : Step s (typeSys t s)
  | dismiss (s : SysState) : Step s (dismissSys s)

/-- States reachable from the freshly mounted component. -/
inductive Reach : SysState → Prop
  | init : Reach initState
  | step (s s' : SysState) (h : Reach s) (hs : Step s s') : Reach s'

/-! ## Helper lemmas -/

theorem mem_dropWhile_of_neg {α : Type} {p : α → Bool} :
    ∀ {l : List α} {a : α}, a ∈ l → p a = false → a ∈ l.dropWhile p := by
  intro l
  induction l with
  | nil => intro a ha _; cases ha
  | cons x xs ih =>
    intro a ha hpa
    rw [List.dropWhile_cons]
    by_cases hx : p x = true
    · rw [if_pos hx]
      rcases List.mem_cons.mp ha with rfl | h
      · rw [hpa] at hx; cases hx
      · exact ih h hpa
    · rw [if_neg hx]
      exact ha

/-- The JS guard `!input.trim()` holds exactly when the draft is empty or
all-whitespace. -/
theorem jsTrim_eq_empty_iff (s : String) :
    jsTrim s = "" ↔ ∀ c ∈ s.data, c.isWhitespace = true := by
  unfold jsTrim
  constructor
  · intro h
    have h1 : ((s.data.dropWhile Char.isWhitespace).reverse.dropWhile
        Char.isWhitespace).reverse = [] := congrArg String.data h
    rw [List.reverse_eq_nil_iff, List.dropWhile_eq_nil_iff] at h1
    intro c hc
    by_contra hw
    have hc1 : c ∈ s.data.dropWhile Char.isWhitespace :=
      mem_dropWhile_of_neg hc (Bool.not_eq_true _ ▸ hw)
    exact hw (h1 c (List.mem_reverse.mpr hc1))
  · intro h
    have h1 : s.data.dropWhile Char.isWhitespace = [] :=
      List.dropWhile_eq_nil_iff.mpr h
    rw [h1]
    rfl

theorem jsTrim_ne_empty (s : String) (h : ∃ c ∈ s.data, c.isWhitespace = false) :
    jsTrim s ≠ "" := by
  intro he
  obtain ⟨c, hc, hw⟩ := h
  have := (jsTrim_eq_empty_iff s).mp he c hc
  rw [hw] at this
  cases this

/-- The early return on line 31. -/
theorem sendMessage_of_blocked (now : Nat) (s : ChatState)
    (h : jsTrim s.input = "" ∨ s.isStreaming = true) :
    sendMessage now s = (s, none) := by
  unfold sendMessage
  rw [if_pos h]

/-- The accepted-submission path of `sendMessage`, as one equation. -/
theorem sendMessage_of_accepted (now : Nat) (s : ChatState)
    (h1 : jsTrim s.input ≠ "") (h2 : s.isStreaming = false) :
    sendMessage now s =
      ({ input := "",
         messages := s.messages ++ [userMessageOf s, placeholderOf now],
         isStreaming := true,
         error := none,
         abortRef := true },
       some { url := askUrl, method := "POST", question := (userMessageOf s).text,
              id := now }) := by
  unfold sendMessage
  rw [if_neg]
  rintro (h | h)
  · exact h1 h
  · rw [h2] at h; cases h

/-- Every completion branch is an id-selective map that preserves the role
and the id of every message. -/
theorem resolveFetch_messages (id : Nat) (o : FetchOutcome) (s : ChatState) :
    ∃ g : Message → Message,
      (∀ m, (g m).role = m.role ∧ (g m).id = m.id) ∧
      (resolveFetch id o s).messages = updateById id g s.messages := by
  cases o with
  | response status answer sources =>
    by_cases h : 200 ≤ status ∧ status < 300
    · refine ⟨successUpdate answer sources, fun m => ⟨rfl, rfl⟩, ?_⟩
      simp [resolveFetch, finallyStep, onSuccess, if_pos h]
    · refine ⟨failureUpdate, fun m => ⟨rfl, rfl⟩, ?_⟩
      simp [resolveFetch, finallyStep, onFailure, if_neg h]
  | abortError =>
    exact ⟨abortUpdate, fun m => ⟨rfl, rfl⟩, rfl⟩
  | networkError =>
    exact ⟨failureUpdate, fun m => ⟨rfl, rfl⟩, rfl⟩

/-- The `finally` block always clears the in-flight flag. -/
theorem resolveFetch_isStreaming (id : Nat) (o : FetchOutcome) (s : ChatState) :
    (resolveFetch id o s).isStreaming = false := rfl

theorem updateById_length (id : Nat) (g : Message → Message) (ms : List Message) :
    (updateById id g ms).length = ms.length := by
  simp [updateById]

theorem updateById_get (id : Nat) (g : Message → Message) (ms : List Message)
    (i : Nat) (hi : i < ms.length) (hi' : i < (updateById id g ms).length) :
    (updateById id g ms).get ⟨i, hi'⟩ =
      if (ms.get ⟨i, hi⟩).id = some id then g (ms.get ⟨i, hi⟩) else ms.get ⟨i, hi⟩ := by
  simp only [updateById, List.get_eq_getElem, List.getElem_map]

/-- The role sequence of a conversation of `n` completed submissions:
user, bot, user, bot, … -/
def rolePattern : Nat → List String
  | 0 => []
  | n + 1 => rolePattern n ++ ["user", "bot"]

theorem rolePattern_length (n : Nat) : (rolePattern n).length = 2 * n := by
  induction n with
  | zero => rfl
  | succ n ih => simp [rolePattern, ih]; omega

/-- Resolving a fetch never changes the role sequence. -/
theorem roles_resolveFetch (id : Nat) (o : FetchOutcome) (s : ChatState) :
    (resolveFetch id o s).messages.map Message.role = s.messages.map Message.role := by
  obtain ⟨g, hg, hmsg⟩ := resolveFetch_messages id o s
  rw [hmsg]
  unfold updateById
  rw [List.map_map]
  apply List.map_congr_left
  intro m _
  by_cases hid : m.id = some id
  · simp only [Function.comp, if_pos hid]
    exact (hg m).1
  · simp only [Function.comp, if_neg hid]

/-- Each event either keeps the role sequence or extends it by one
user/bot pair. -/
theorem step_roles (s s' : SysState) (h : Step s s') :
    s'.chat.messages.map Message.role = s.chat.messages.map Message.role ∨
    s'.chat.messages.map Message.role =
      s.chat.messages.map Message.role ++ ["user", "bot"] := by
  cases h with
  | submit now s =>
    by_cases hb : jsTrim s.chat.input = "" ∨ s.chat.isStreaming = true
    · left
      simp [submitSys, sendMessage_of_blocked now s.chat hb]
    · right
      push_neg at hb
      simp [submitSys, sendMessage_of_accepted now s.chat hb.1 (Bool.eq_false_iff.mpr hb.2),
        userMessageOf, placeholderOf]
  | resolve id o s hp =>
    left
    simp [resolveSys, roles_resolveFetch]
  | stop s =>
    left
    cases hab : s.chat.abortRef <;> simp [stopSys, stopGeneration, hab]
  | type t s =>
    left
    rfl
  | dismiss s =>
    left
    rfl

/-- An event never reorders or removes messages: every existing message
stays at its position, updated at most in place with its role and id kept,
and any new messages are appended after the existing ones. -/
theorem step_no_reorder (s s' : SysState) (h : Step s s') :
    ∃ g : Message → Message,
      (∀ m, (g m).role = m.role ∧ (g m).id = m.id) ∧
      ∃ tail, s'.chat.messages = s.chat.messages.map g ++ tail := by
  cases h with
  | submit now s =>
    by_cases hb : jsTrim s.chat.input = "" ∨ s.chat.isStreaming = true
    · refine ⟨fun m => m, fun m => ⟨rfl, rfl⟩, [], ?_⟩
      simp [submitSys, sendMessage_of_blocked now s.chat hb]
    · push_neg at hb
      refine ⟨fun m => m, fun m => ⟨rfl, rfl⟩, [userMessageOf s.chat, placeholderOf now], ?_⟩
      simp [submitSys, sendMessage_of_accepted now s.chat hb.1 (Bool.eq_false_iff.mpr hb.2)]
  | resolve id o s hp =>
    obtain ⟨g, hg, hmsg⟩ := resolveFetch_messages id o s.chat
    refine ⟨fun m => if m.id = some id then g m else m, ?_, [], ?_⟩
    · intro m
      by_cases hid : m.id = some id
      · simp [hid, (hg m).1, (hg m).2]
      · simp [hid]
    · rw [show (resolveSys id o s).chat = resolveFetch id o s.chat from rfl, hmsg]
      simp [updateById]
  | stop s =>
    refine ⟨fun m => m, fun m => ⟨rfl, rfl⟩, [], ?_⟩
    cases hab : s.chat.abortRef <;> simp [stopSys, stopGeneration, hab]
  | type t s =>
    exact ⟨fun m => m, fun m => ⟨rfl, rfl⟩, [], by simp [typeSys, typeInput]⟩
  | dismiss s =>
    exact ⟨fun m => m, fun m => ⟨rfl, rfl⟩, [], by simp [dismissSys, dismissError]⟩

/-- An event never removes messages. -/
theorem step_length_mono (s s' : SysState) (h : Step s s') :
    s.chat.messages.length ≤ s'.chat.messages.length := by
  rcases step_roles s s' h with heq | happ
  · have := congrArg List.length heq
    simp only [List.length_map] at this
    omega
  · have := congrArg List.length happ
    simp only [List.length_map, List.length_append, List.length_cons] at this
    omega

/-- Invariant: the role sequence of any reachable state is an alternating
user/bot pattern of even length. -/
theorem reach_rolePattern (t : SysState) (h : Reach t) :
    ∃ n, t.chat.messages.map Message.role = rolePattern n := by
  induction h with
  | init => exact ⟨0, rfl⟩
  | step s s' hr hs ih =>
    obtain ⟨n, hn⟩ := ih
    rcases step_roles s s' hs with heq | happ
    · exact ⟨n, heq.trans hn⟩
    · refine ⟨n + 1, ?_⟩
      rw [happ, hn]
      rfl

/-- Invariant: while a request is in flight the error banner is clear. -/
theorem error_none_of_streaming (t : SysState) (h : Reach t) :
    t.chat.isStreaming = true → t.chat.error = none := by
  induction h with
  | init => intro hs; cases hs
  | step s s' hr hs ih =>
    cases hs with
    | submit now s =>
      by_cases hb : jsTrim s.chat.input = "" ∨ s.chat.isStreaming = true
      · intro h'
        have he : (submitSys now s).chat = s.chat := by
          simp [submitSys, sendMessage_of_blocked now s.chat hb]
        rw [he] at h' ⊢
        exact ih h'
      · intro _
        push_neg at hb
        simp [submitSys,
          sendMessage_of_accepted now s.chat hb.1 (Bool.eq_false_iff.mpr hb.2)]
    | resolve id o s hp =>
      intro h'
      rw [show (resolveSys id o s).chat = resolveFetch id o s.chat from rfl,
        resolveFetch_isStreaming] at h'
      cases h'
    | stop s =>
      cases hab : s.chat.abortRef with
      | false =>
        intro h'
        have he : (stopSys s).chat = s.chat := by simp [stopSys, stopGeneration, hab]
        rw [he] at h' ⊢
        exact ih h'
      | true =>
        intro h'
        simp [stopSys, stopGeneration, hab] at h'
    | type t s =>
      intro h'
      exact ih h'
    | dismiss s =>
      intro _
      rfl

/-! ## Concrete states used by the witnesses -/

/-- An idle state with a typed draft and a stale error banner. -/
def sampleState : ChatState :=
  { input := "  How do I apply?  ", messages := [], isStreaming := false,
    error := some "old banner", abortRef := false }

/-- An idle state whose draft is all whitespace. -/
def blankState : ChatState :=
  { input := " \t " , messages := [], isStreaming := false, error := none,
    abortRef := false }

/-- A state with a request in flight whose placeholder has id 5. -/
def inFlightState : ChatState :=
  { input := "",
    messages := [{ role := "user", text := "How do I apply?" },
                 { role := "bot", id := some 5, text := "", isStreaming := some true }],
    isStreaming := true, error := none, abortRef := true }

/-! ## Claims -/

/-- C1: in any state whose draft holds at least one non-whitespace character
and with no request in flight, `sendMessage` appends exactly two messages:
a `"user"` message carrying the trimmed draft followed by a `"bot"`
placeholder whose `isStreaming` flag is `true`; every existing message is
kept unchanged in place and nothing else is added or removed. -/
theorem submit_appends_user_and_placeholder (now : Nat) (s : ChatState)
    (h1 : ∃ c ∈ s.input.data, c.isWhitespace = false)
    (h2 : s.isStreaming = false) :
    (sendMessage now s).1.messages =
      s.messages ++
        [{ role := "user", id := none, text := jsTrim s.input, sources := none,
           isStreaming := none, isError := none },
         { role := "bot", id := some now, text := "", sources := none,
           isStreaming := some true, isError := none }] := by
  rw [sendMessage_of_accepted now s (jsTrim_ne_empty s.input h1) h2]
  rfl

/-- Witness: C1 applied to `sampleState` with `Date.now() = 5`. -/
theorem submit_appends_user_and_placeholder_witness :
    (∃ c ∈ sampleState.input.data, c.isWhitespace = false) ∧
    sampleState.isStreaming = false ∧
    jsTrim sampleState.input = "How do I apply?" ∧
    (sendMessage 5 sampleState).1.messages =
      sampleState.messages ++
        [{ role := "user", id := none, text := jsTrim sampleState.input, sources := none,
           isStreaming := none, isError := none },
         { role := "bot", id := some 5, text := "", sources := none,
           isStreaming := some true, isError := none }] :=
  ⟨by decide, rfl, by decide,
    submit_appends_user_and_placeholder 5 sampleState (by decide) rfl⟩

/-- C2: if the draft is empty or all whitespace, `sendMessage` is a complete
no-op: the whole state (messages, in-flight flag, error text, draft) is
returned unchanged and no request is issued. -/
theorem submit_blank_is_noop (now : Nat) (s : ChatState)
    (h : ∀ c ∈ s.input.data, c.isWhitespace = true) :
    sendMessage now s = (s, none) :=
  sendMessage_of_blocked now s (Or.inl ((jsTrim_eq_empty_iff s.input).mpr h))

/-- Witness: C2 applied to `blankState`. -/
theorem submit_blank_is_noop_witness :
    (∀ c ∈ blankState.input.data, c.isWhitespace = true) ∧
    sendMessage 3 blankState = (blankState, none) :=
  ⟨by decide, submit_blank_is_noop 3 blankState (by decide)⟩

/-- C6: while the in-flight flag is set, `sendMessage` issues no request and
changes no state, so a second request can never be started while one is in
flight. -/
theorem submit_while_streaming_is_noop (now : Nat) (s : ChatState)
    (h : s.isStreaming = true) :
    sendMessage now s = (s, none) :=
  sendMessage_of_blocked now s (Or.inr h)

/-- Witness: C6 applied to `inFlightState`. -/
theorem submit_while_streaming_is_noop_witness :
    inFlightState.isStreaming = true ∧
    sendMessage 9 inFlightState = (inFlightState, none) :=
  ⟨rfl, submit_while_streaming_is_noop 9 inFlightState rfl⟩

/-- C7: an accepted submission issues exactly one POST request, to the /ask
endpoint, whose body is the object with the single field `question` holding
the trimmed draft at submission time. -/
theorem submit_issues_single_post (now : Nat) (s : ChatState)
    (h1 : ∃ c ∈ s.input.data, c.isWhitespace = false)
    (h2 : s.isStreaming = false) :
    (sendMessage now s).2 =
      some { url := askUrl, method := "POST", question := jsTrim s.input, id := now } ∧
    askUrl = "http://127.0.0.1:8000/ask" := by
  rw [sendMessage_of_accepted now s (jsTrim_ne_empty s.input h1) h2]
  exact ⟨rfl, rfl⟩

/-- Witness: C7 applied to `sampleState` with `Date.now() = 5`. -/
theorem submit_issues_single_post_witness :
    (∃ c ∈ sampleState.input.data, c.isWhitespace = false) ∧
    sampleState.isStreaming = false ∧
    ((sendMessage 5 sampleState).2 =
      some { url := askUrl, method := "POST", question := jsTrim sampleState.input,
             id := 5 } ∧
     askUrl = "http://127.0.0.1:8000/ask") :=
  ⟨by decide, rfl, submit_issues_single_post 5 sampleState (by decide) rfl⟩

/-- C10: an accepted submission clears the error banner and the draft in the
very submission step, and in every reachable state a set in-flight flag
implies a clear error banner, so a stale banner is never shown while a new
request is in flight. -/
theorem submit_clears_error_banner_and_draft (now : Nat) (s : ChatState)
    (h1 : ∃ c ∈ s.input.data, c.isWhitespace = false)
    (h2 : s.isStreaming = false) :
    (sendMessage now s).1.error = none ∧ (sendMessage now s).1.input = "" ∧
    ∀ t, Reach t → t.chat.isStreaming = true → t.chat.error = none := by
  rw [sendMessage_of_accepted now s (jsTrim_ne_empty s.input h1) h2]
  exact ⟨rfl, rfl, fun t ht => error_none_of_streaming t ht⟩

/-- Witness: C10 applied to `sampleState` (which carries a stale banner),
with the invariant part instantiated at a concrete reachable in-flight
state. -/
theorem submit_clears_error_banner_and_draft_witness :
    (∃ c ∈ sampleState.input.data, c.isWhitespace = false) ∧
    sampleState.isStreaming = false ∧
    sampleState.error = some "old banner" ∧
    (sendMessage 5 sampleState).1.error = none ∧
    (sendMessage 5 sampleState).1.input = "" ∧
    (submitSys 7 (typeSys "hi" initState)).chat.error = none :=
  ⟨by decide, rfl, rfl,
    (submit_clears_error_banner_and_draft 5 sampleState (by decide) rfl).1,
    (submit_clears_error_banner_and_draft 5 sampleState (by decide) rfl).2.1,
    (submit_clears_error_banner_and_draft 5 sampleState (by decide) rfl).2.2
      (submitSys 7 (typeSys "hi" initState))
      (Reach.step _ _ (Reach.step _ _ Reach.init (Step.type "hi" initState))
        (Step.submit 7 (typeSys "hi" initState)))
      (by decide)⟩

/-- C3: when the fetch resolves with a 2xx response carrying `{answer,
sources}`, the placeholder created for the request ends with its text equal
to the answer, its sources equal to the response sources and its streaming
flag off, and the in-flight flag is cleared; every other message is left
alone. -/
theorem resolve_success_populates_placeholder (id status : Nat) (answer : String)
    (sources : List Source) (s : ChatState)
    (h : 200 ≤ status ∧ status < 300) :
    (resolveFetch id (.response status answer sources) s).isStreaming = false ∧
    (resolveFetch id (.response status answer sources) s).messages =
      s.messages.map fun m =>
        if m.id = some id then
          { m with text := answer, sources := some sources, isStreaming := some false }
        else m := by
  refine ⟨rfl, ?_⟩
  show (finallyStep (if 200 ≤ status ∧ status < 300 then onSuccess id answer sources s
    else onFailure id s)).messages = _
  rw [if_pos h]
  rfl

/-- Witness: C3 applied to `inFlightState` for a 200 response. -/
theorem resolve_success_populates_placeholder_witness :
    (200 ≤ 200 ∧ 200 < 300) ∧
    ((resolveFetch 5 (.response 200 "Apply online." [⟨"handbook.pdf", 87⟩])
        inFlightState).isStreaming = false ∧
     (resolveFetch 5 (.response 200 "Apply online." [⟨"handbook.pdf", 87⟩])
        inFlightState).messages =
       inFlightState.messages.map fun m =>
         if m.id = some 5 then
           { m with text := "Apply online.", sources := some [⟨"handbook.pdf", 87⟩],
                    isStreaming := some false }
         else m) :=
  ⟨by decide,
    resolve_success_populates_placeholder 5 200 "Apply online." [⟨"handbook.pdf", 87⟩]
      inFlightState (by decide)⟩

/-- C4: when the fetch rejects with an AbortError (the user pressed Stop),
the placeholder is marked stopped — its text becomes the stopped notice and
its streaming flag goes off — the in-flight flag is cleared both by the
handler and by `stopGeneration` itself, and the error banner is left
untouched. -/
theorem resolve_abort_marks_stopped (id : Nat) (s : ChatState) :
    (resolveFetch id .abortError s).isStreaming = false ∧
    (resolveFetch id .abortError s).error = s.error ∧
    ((resolveFetch id .abortError s).messages =
      s.messages.map fun m =>
        if m.id = some id then { m with text := stoppedText, isStreaming := some false }
        else m) ∧
    (s.abortRef = true → (stopGeneration s).isStreaming = false) := by
  refine ⟨rfl, rfl, rfl, ?_⟩
  intro hab
  simp [stopGeneration, hab]

/-- Witness: C4 applied to `inFlightState`. -/
theorem resolve_abort_marks_stopped_witness :
    (resolveFetch 5 .abortError inFlightState).isStreaming = false ∧
    (resolveFetch 5 .abortError inFlightState).error = inFlightState.error ∧
    inFlightState.abortRef = true ∧
    (stopGeneration inFlightState).isStreaming = false :=
  ⟨(resolve_abort_marks_stopped 5 inFlightState).1,
   (resolve_abort_marks_stopped 5 inFlightState).2.1,
   rfl,
   (resolve_abort_marks_stopped 5 inFlightState).2.2.2 rfl⟩

/-- C5: when the fetch comes back with a non-2xx status, or rejects with
anything other than an AbortError, the error banner is set to the fallback
connectivity message, the placeholder gets the fallback error text with its
`isError` flag on and its streaming flag off, and the in-flight flag is
cleared. -/
theorem resolve_failure_sets_error_banner (id : Nat) (o : FetchOutcome) (s : ChatState)
    (h : o = .networkError ∨
      ∃ status answer sources,
        o = .response status answer sources ∧ ¬(200 ≤ status ∧ status < 300)) :
    (resolveFetch id o s).isStreaming = false ∧
    (resolveFetch id o s).error = some errorBannerText ∧
    (resolveFetch id o s).messages =
      s.messages.map fun m =>
        if m.id = some id then
          { m with text := fallbackErrorText, isStreaming := some false,
                   isError := some true }
        else m := by
  rcases h with rfl | ⟨status, answer, sources, rfl, hst⟩
  · exact ⟨rfl, rfl, rfl⟩
  · refine ⟨rfl, ?_, ?_⟩
    · show (finallyStep (if 200 ≤ status ∧ status < 300 then onSuccess id answer sources s
        else onFailure id s)).error = _
      rw [if_neg hst]
      rfl
    · show (finallyStep (if 200 ≤ status ∧ status < 300 then onSuccess id answer sources s
        else onFailure id s)).messages = _
      rw [if_neg hst]
      rfl

/-- Witness: C5 applied to `inFlightState` for a 503 response. -/
theorem resolve_failure_sets_error_banner_witness :
    ((FetchOutcome.response 503 "" [] : FetchOutcome) = .networkError ∨
      ∃ status answer sources,
        (FetchOutcome.response 503 "" [] : FetchOutcome) = .response status answer sources ∧
        ¬(200 ≤ status ∧ status < 300)) ∧
    ((resolveFetch 5 (.response 503 "" []) inFlightState).isStreaming = false ∧
     (resolveFetch 5 (.response 503 "" []) inFlightState).error = some errorBannerText ∧
     (resolveFetch 5 (.response 503 "" []) inFlightState).messages =
       inFlightState.messages.map fun m =>
         if m.id = some 5 then
           { m with text := fallbackErrorText, isStreaming := some false,
                    isError := some true }
         else m) :=
  ⟨Or.inr ⟨503, "", [], rfl, by decide⟩,
    resolve_failure_sets_error_banner 5 (.response 503 "" []) inFlightState
      (Or.inr ⟨503, "", [], rfl, by decide⟩)⟩

/-- C8: every completion branch touches at most the placeholder whose id
matches the request: the list keeps its length, every message keeps its
role and its id, and any message whose id differs from the request's id is
kept entirely unchanged. -/
theorem resolve_touches_only_matching_placeholder (id : Nat) (o : FetchOutcome)
    (s : ChatState) :
    (resolveFetch id o s).messages.length = s.messages.length ∧
    ∀ i : Nat,
      ((resolveFetch id o s).messages[i]?).map Message.role =
        (s.messages[i]?).map Message.role ∧
      ((resolveFetch id o s).messages[i]?).map Message.id =
        (s.messages[i]?).map Message.id ∧
      ∀ m, s.messages[i]? = some m → m.id ≠ some id →
        (resolveFetch id o s).messages[i]? = some m := by
  obtain ⟨g, hg, hmsg⟩ := resolveFetch_messages id o s
  rw [hmsg]
  refine ⟨updateById_length id g s.messages, ?_⟩
  intro i
  unfold updateById
  rw [List.getElem?_map]
  cases hm : s.messages[i]? with
  | none => exact ⟨rfl, rfl, fun m hm' => by cases hm'⟩
  | some m =>
    refine ⟨?_, ?_, ?_⟩
    · by_cases hid : m.id = some id
      · simp [hid, (hg m).1]
      · simp [hid]
    · by_cases hid : m.id = some id
      · simp [hid, (hg m).2]
      · simp [hid]
    · intro m' hm' hne
      obtain rfl : m = m' := by cases hm'; rfl
      simp [hne]

/-- Witness: C8 applied to `inFlightState` resolving with a network error;
the user message (index 0, id absent) is untouched. -/
theorem resolve_touches_only_matching_placeholder_witness :
    (resolveFetch 5 .networkError inFlightState).messages.length =
      inFlightState.messages.length ∧
    (resolveFetch 5 .networkError inFlightState).messages[0]? =
      some { role := "user", text := "How do I apply?" } :=
  ⟨(resolve_touches_only_matching_placeholder 5 .networkError inFlightState).1,
   ((resolve_touches_only_matching_placeholder 5 .networkError inFlightState).2 0).2.2
     { role := "user", text := "How do I apply?" } rfl (by decide)⟩

/-- C9: every state reachable from the empty conversation has a message list
of even length whose roles strictly alternate user, bot, user, bot, …; no
event ever shrinks the list, and no event ever reorders it: each existing
message stays at its position with its role and id, updated at most in
place, and new messages are only appended at the end. -/
theorem reach_alternating_roles (t : SysState) (h : Reach t) :
    (∃ n, t.chat.messages.map Message.role = rolePattern n) ∧
    t.chat.messages.length % 2 = 0 ∧
    (∀ t', Step t t' → t.chat.messages.length ≤ t'.chat.messages.length) ∧
    ∀ t', Step t t' →
      ∃ g : Message → Message,
        (∀ m, (g m).role = m.role ∧ (g m).id = m.id) ∧
        ∃ tail, t'.chat.messages = t.chat.messages.map g ++ tail := by
  refine ⟨reach_rolePattern t h, ?_, fun t' h' => step_length_mono t t' h',
    fun t' h' => step_no_reorder t t' h'⟩
  obtain ⟨n, hn⟩ := reach_rolePattern t h
  have h1 := congrArg List.length hn
  rw [List.length_map, rolePattern_length] at h1
  omega

/-- Witness: C9 applied to the reachable state obtained by typing "hi" into
the fresh component and submitting it, with the per-event parts
instantiated at the Stop event. -/
theorem reach_alternating_roles_witness :
    (∃ n, (submitSys 7 (typeSys "hi" initState)).chat.messages.map Message.role =
      rolePattern n) ∧
    (submitSys 7 (typeSys "hi" initState)).chat.messages.length % 2 = 0 ∧
    (submitSys 7 (typeSys "hi" initState)).chat.messages.length ≤
      (stopSys (submitSys 7 (typeSys "hi" initState))).chat.messages.length ∧
    ∃ g : Message → Message,
      (∀ m, (g m).role = m.role ∧ (g m).id = m.id) ∧
      ∃ tail, (stopSys (submitSys 7 (typeSys "hi" initState))).chat.messages =
        (submitSys 7 (typeSys "hi" initState)).chat.messages.map g ++ tail := by
  have h := reach_alternating_roles (submitSys 7 (typeSys "hi" initState))
    (Reach.step _ _ (Reach.step _ _ Reach.init (Step.type "hi" initState))
      (Step.submit 7 (typeSys "hi" initState)))
  exact ⟨h.1, h.2.1, h.2.2.1 _ (Step.stop _), h.2.2.2 _ (Step.stop _)⟩

end RagChat
